import Mathlib

/-!
Verification development for the skybox face-to-cubemap-cross stitching
pipeline of CS2KZ-Mapping-Tools (src/scripts/skybox_gui_old.py).

The embedding translates the pipeline functions of the source file:
`select_skybox_files` (filename-pattern face identification),
`stitch_skybox` (load, normalize, transform, composite, save),
`create_vmat_files` / `get_ldr_vmat_content` / `get_moondome_vmat_content`
(material descriptor emission), and `main` (orchestration).

Pixel buffers (PIL images) are modelled as a width, a height and a total
pixel function; the PIL library operations used by the source
(`Image.new`, `paste`, `resize`, `rotate(_, expand=False)`, `transpose`)
are modelled from their documented semantics, since PIL is an external
dependency.  File-system and GUI effects are modelled as explicit
parameters (decode results, save success flags).
-/

/-- One RGBA pixel, as handled by the pipeline (`convert("RGBA")`). -/
structure RGBA where
  r : Nat
  g : Nat
  b : Nat
  a : Nat
  deriving DecidableEq, Repr

/-- A decoded pixel buffer: width, height and a total pixel function,
modelling a PIL `Image`.  Out-of-range coordinates are given arbitrary
values by the pixel function; the theorems only inspect in-range pixels. -/
structure Image where
  width : Nat
  height : Nat
  pix : Nat → Nat → RGBA

/-- The six canonical face slots (dictionary keys used throughout
`skybox_gui_old.py`). -/
inductive Slot where
  | up
  | left
  | front
  | right
  | back
  | down
  deriving DecidableEq, Repr

/-- Face order for the skybox: `TARGET_SLOTS = ['up', 'left', 'front',
'right', 'back', 'down']` (line 29 of the source). -/
def TARGET_SLOTS : List Slot := [.up, .left, .front, .right, .back, .down]

/-- Position of a slot in `TARGET_SLOTS` (for stating first-match order). -/
def slotIndex : Slot → Nat
  | .up => 0
  | .left => 1
  | .front => 2
  | .right => 3
  | .back => 4
  | .down => 5

/-- PIL transpose constants used by the transform table
(`Image.FLIP_LEFT_RIGHT`, `Image.FLIP_TOP_BOTTOM`). -/
inductive FlipMode where
  | flipLeftRight
  | flipTopBottom
  deriving DecidableEq, Repr

/-- Transformation configuration for standard VTF/PNG files, lines 33-40:
`'Target Slot': ('Source Face', Rotation Degrees (CCW), PIL Flip Constant)`. -/
def DEFAULT_TRANSFORMS : Slot → Slot × Nat × Option FlipMode
  | .up => (.up, 0, none)
  | .down => (.down, 0, none)
  | .left => (.back, 0, none)
  | .front => (.right, 0, none)
  | .right => (.front, 0, none)
  | .back => (.left, 0, none)

/-- The name string of each slot, as used in dictionary keys and messages. -/
def slot_name : Slot → String
  | .up => "up"
  | .left => "left"
  | .front => "front"
  | .right => "right"
  | .back => "back"
  | .down => "down"

/-- Substring occurrence on character lists: `occurs sub s` holds when
`sub` occurs contiguously inside `s`.  Models the Python `sub in s`
string-membership test used for pattern matching (line 107). -/
def occurs (sub : List Char) : List Char → Bool
  | [] => sub.isEmpty
  | c :: rest => sub.isPrefixOf (c :: rest) || occurs sub rest

/-- String containment: `strContains s sub` models Python `sub in s`. -/
def strContains (s sub : String) : Bool :=
  occurs sub.toList s.toList

/-- The per-slot filename pattern tables, lines 96-103 of the source. -/
def face_patterns : Slot → List String
  | .up => ["_up.", "up.", "_up_", "up_", "_pz.", "pz.", "_pz_", "pz_"]
  | .down => ["_down.", "down.", "_down_", "down_", "_dn.", "dn.", "_dn_", "dn_",
      "_nz.", "nz.", "_nz_", "nz_"]
  | .left => ["_left.", "left.", "_left_", "left_", "_lf.", "lf.", "_lf_", "lf_",
      "_nx.", "nx.", "_nx_", "nx_"]
  | .right => ["_right.", "right.", "_right_", "right_", "_rt.", "rt.", "_rt_", "rt_",
      "_px.", "px.", "_px_", "px_"]
  | .front => ["_front.", "front.", "_front_", "front_", "_ft.", "ft.", "_ft_", "ft_",
      "_ny.", "ny.", "_ny_", "ny_"]
  | .back => ["_back.", "back.", "_back_", "back_", "_bk.", "bk.", "_bk_", "bk_",
      "_py.", "py.", "_py_", "py_"]

/-- Whether a (lower-cased) filename matches a slot's pattern table:
`any(pattern in filename for pattern in patterns)` (line 107). -/
def slot_matches (filename : String) (face : Slot) : Bool :=
  (face_patterns face).any (fun p => strContains filename p)

/-- The inner loop of `select_skybox_files` (lines 94-117): test the
filename against each slot of `TARGET_SLOTS` in order, stop at the first
slot whose pattern table matches. -/
def match_face_loop (filename : String) : List Slot → Option Slot
  | [] => none
  | face :: rest =>
      if slot_matches filename face then some face else match_face_loop filename rest

/-- Errors surfaced by `select_skybox_files` through its message boxes. -/
inductive IdentifyError where
  | invalidSelection (n : Nat)
  | duplicateFace (face : Slot)
  | cannotAutoDetect (matched : Nat) (missing : List Slot) (unmatched : List String)
  deriving DecidableEq, Repr

/-- The "Duplicate Face" message text (lines 110-113).  It interpolates
only the slot name, not the conflicting file paths. -/
def duplicate_face_message (face : Slot) : String :=
  "Multiple files detected for \x27" ++ slot_name face ++
    "\x27 face.\nPlease ensure each face has only one image."

/-- The "Cannot Auto-Detect Faces" message text (lines 125-133). -/
def cannot_auto_detect_message (matched : Nat) (missing : List Slot)
    (unmatched : List String) : String :=
  "Could not automatically detect which image corresponds to which skybox face.\n\n" ++
    "Matched: " ++ toString matched ++ "/6 faces\n" ++
    "Missing: " ++ String.intercalate ", " (missing.map slot_name) ++ "\n" ++
    "Unmatched files: " ++
      (if unmatched.isEmpty then "None" else String.intercalate ", " unmatched) ++
    "\n\nPlease ensure your files are named with face indicators:\n" ++
    "Examples: skybox_up.png, left.tga, mysky_front.jpg, etc."

/-- Model of Python `str.lower()` applied to the candidate basenames
(line 91): character-wise ASCII lower-casing. -/
def str_lower (s : String) : String :=
  String.mk (s.toList.map Char.toLower)

/-- The matching loop of `select_skybox_files` (lines 90-121): process the
candidate basenames in order, building the `files` dictionary (an
insertion-ordered association list) and the `unmatched_files` list.  Hitting
a slot that is already assigned aborts with that slot (the "Duplicate Face"
branch, lines 108-114). -/
def identify_loop : List String → List (Slot × String) → List String →
    Except Slot (List (Slot × String) × List String)
  | [], files, unmatched => .ok (files, unmatched)
  | path :: rest, files, unmatched =>
      match match_face_loop (str_lower path) TARGET_SLOTS with
      | some face =>
          if (files.lookup face).isSome then .error face
          else identify_loop rest (files ++ [(face, path)]) unmatched
      | none => identify_loop rest files (unmatched ++ [path])

/-- `select_skybox_files` (lines 42-136), restricted to its pure
identification logic: the argument is the list of selected file basenames
(the source lower-cases each `os.path.basename` before matching and the
user dialog itself is external).  Returns the slot-to-file mapping or the
error shown to the user. -/
def select_skybox_files (file_paths : List String) :
    Except IdentifyError (List (Slot × String)) :=
  if file_paths.length ≠ 6 then .error (.invalidSelection file_paths.length)
  else
    match identify_loop file_paths [] [] with
    | .error face => .error (.duplicateFace face)
    | .ok (files, unmatched) =>
        if files.length ≠ 6 then
          .error (.cannotAutoDetect files.length
            (TARGET_SLOTS.filter (fun f => (files.lookup f).isNone)) unmatched)
        else .ok files

/-! ## PIL image operation models

The following definitions model the PIL library calls used by
`stitch_skybox`.  PIL is an external dependency, so these are modelled
from PIL's documented behavior, not from repository code. -/

/-- Model of `Image.new('RGBA', (w, h), c)`: a constant-color canvas. -/
def image_new (w h : Nat) (c : RGBA) : Image :=
  ⟨w, h, fun _ _ => c⟩

/-- Model of `canvas.paste(img, (px, py))`: direct overwrite of the
rectangle of `img` at offset `(px, py)`, no blending, alpha taken from the
source; pixels outside the pasted rectangle keep the canvas value. -/
def paste (canvas img : Image) (px py : Nat) : Image :=
  ⟨canvas.width, canvas.height, fun x y =>
    if px ≤ x ∧ x < px + img.width ∧ py ≤ y ∧ y < py + img.height then
      img.pix (x - px) (y - py)
    else canvas.pix x y⟩

/-- Model of `img.resize((w, h), Image.Resampling.LANCZOS)`: the output
has exactly the requested dimensions.  The Lanczos kernel itself is not
reproduced; sampling is modelled by nearest-neighbour coordinates.  The
claims rely only on the output dimensions of this operation. -/
def resize (img : Image) (w h : Nat) : Image :=
  ⟨w, h, fun x y => img.pix (x * img.width / w) (y * img.height / h)⟩

/-- Model of `img.rotate(angle, expand=False)` for right-angle multiples:
counter-clockwise rotation with the canvas size preserved (no crop or
expand).  Other angles do not occur in the source's transform tables. -/
def rotate (img : Image) (angle : Nat) : Image :=
  if angle % 360 = 90 then
    ⟨img.width, img.height, fun x y => img.pix (img.width - 1 - y) x⟩
  else if angle % 360 = 180 then
    ⟨img.width, img.height, fun x y => img.pix (img.width - 1 - x) (img.height - 1 - y)⟩
  else if angle % 360 = 270 then
    ⟨img.width, img.height, fun x y => img.pix y (img.height - 1 - x)⟩
  else img

/-- Model of `img.transpose(flip)` for the two flip constants. -/
def transpose (img : Image) (f : FlipMode) : Image :=
  match f with
  | .flipLeftRight => ⟨img.width, img.height, fun x y => img.pix (img.width - 1 - x) y⟩
  | .flipTopBottom => ⟨img.width, img.height, fun x y => img.pix x (img.height - 1 - y)⟩

/-! ## The stitching pipeline (`stitch_skybox`, lines 335-414) -/

/-- Coordinates for each face in the 4x3 grid (lines 369-376). -/
def COORDS (base_size : Nat) : Slot → Nat × Nat
  | .up => (base_size * 1, base_size * 0)
  | .left => (base_size * 0, base_size * 1)
  | .front => (base_size * 1, base_size * 1)
  | .right => (base_size * 2, base_size * 1)
  | .back => (base_size * 3, base_size * 1)
  | .down => (base_size * 1, base_size * 2)

/-- Resize-to-base step (lines 388-390): the source only resizes when the
image's width (`size[0]`) differs from `base_size`. -/
def normalize_size (base_size : Nat) (img : Image) : Image :=
  if img.width ≠ base_size then resize img base_size base_size else img

/-- Rotation and flip application (lines 392-398): rotate when the
configured rotation is nonzero, then transpose when a flip is configured. -/
def apply_transform (rotation_degrees : Nat) (flip : Option FlipMode) (img : Image) :
    Image :=
  let rotated := if rotation_degrees ≠ 0 then rotate img rotation_degrees else img
  match flip with
  | none => rotated
  | some f => transpose rotated f

/-- The buffer actually pasted for a target slot (lines 381-398): look up
the transform rule, take the image of the configured source face, resize
on width mismatch, then rotate/flip. -/
def transformed_face (images : Slot → Image) (base_size : Nat) (target_slot : Slot) :
    Image :=
  let rule := DEFAULT_TRANSFORMS target_slot
  apply_transform rule.2.1 rule.2.2 (normalize_size base_size (images rule.1))

/-- One iteration of the target-slot loop (lines 381-402): paste the
transformed buffer at the slot's grid-cell offset. -/
def paste_step (images : Slot → Image) (base_size : Nat) (canvas : Image)
    (target_slot : Slot) : Image :=
  paste canvas (transformed_face images base_size target_slot)
    (COORDS base_size target_slot).1 (COORDS base_size target_slot).2

/-- The composition loop (lines 363-402): allocate the transparent
`(4*base_size, 3*base_size)` RGBA canvas and paste each target slot in
`TARGET_SLOTS` order. -/
def stitch_atlas (images : Slot → Image) (base_size : Nat) : Image :=
  TARGET_SLOTS.foldl (paste_step images base_size)
    (image_new (base_size * 4) (base_size * 3) ⟨0, 0, 0, 0⟩)

/-- The in-memory part of `stitch_skybox` over already-decoded images
(lines 344-402): `base_size` is the width of the first image in the
insertion-ordered `files` dictionary (line 361, `img.size[0]`), and each
target slot's pixels are looked up from its configured source face; a
missing source face raises (modelled as `none`). -/
def compose (imgs : List (Slot × Image)) : Option Image :=
  match imgs.head? with
  | none => none
  | some (_, first_img) =>
      match imgs.lookup .up, imgs.lookup .left, imgs.lookup .front,
          imgs.lookup .right, imgs.lookup .back, imgs.lookup .down with
      | some u, some l, some f, some r, some b, some d =>
          some (stitch_atlas
            (fun s => match s with
              | .up => u | .left => l | .front => f
              | .right => r | .back => b | .down => d)
            first_img.width)
      | _, _, _, _, _, _ => none

/-- The image-loading loop of `stitch_skybox` (lines 340-361): decode each
file in dictionary order; any decode failure raises (modelled as `none`).
The decoder (`PIL.Image.open` / `convert_vtf_to_pil_image`) is external
and passed as a function. -/
def load_images (dec : String → Option Image) :
    List (Slot × String) → Option (List (Slot × Image))
  | [] => some []
  | (s, p) :: rest =>
      match dec p, load_images dec rest with
      | some img, some more => some ((s, img) :: more)
      | _, _ => none

/-- `stitch_skybox` (lines 335-414): load all faces, compose the atlas,
save it.  Any exception (decode failure, missing face, failed save) makes
the function return failure (`(False, message)` in the source); success
returns the saved atlas.  `save_ok` models whether `final_image.save`
succeeds (the filesystem is external). -/
def stitch_skybox (dec : String → Option Image) (files : List (Slot × String))
    (save_ok : Bool) : Option Image :=
  match load_images dec files with
  | none => none
  | some imgs =>
      match compose imgs with
      | none => none
      | some atlas => if save_ok then some atlas else none

/-! ## Material descriptor emission (lines 201-311) -/

/-- Model of `os.path.splitext(...)[0]` for ordinary file names: the part
of the name before its last dot, or the whole name when it has no dot.
`os.path` is an external library; only this basic behavior is used. -/
def splitext_stem (filename : String) : String :=
  let cs := filename.toList
  if cs.contains '.' then
    String.mk (((cs.reverse.dropWhile (fun c => c ≠ '.')).drop 1).reverse)
  else filename

/-- `get_ldr_vmat_content` (lines 201-224): the standard-skybox VMAT
template with its single substitution point, the sky texture path. -/
def get_ldr_vmat_content (sky_texture_path : String) : String :=
  "// THIS FILE IS AUTO-GENERATED (STANDARD SKYBOX)\n\nLayer0\n\x7b\n" ++
    "    shader \"sky.vfx\"\n\n    //---- Format ----\n" ++
    "    F_TEXTURE_FORMAT2 1 // Dxt1 (LDR)\n\n    //---- Texture ----\n" ++
    "    g_flBrightnessExposureBias \"0.000\"\n" ++
    "    g_flRenderOnlyExposureBias \"0.000\"\n" ++
    "    SkyTexture \"" ++ sky_texture_path ++ "\"\n\n\n" ++
    "    VariableState\n    \x7b\n        \"Texture\"\n        \x7b\n" ++
    "        \x7d\n    \x7d\n\x7d"

/-- `get_moondome_vmat_content` (lines 226-277): the moondome VMAT
template with its single substitution point, the sky texture path. -/
def get_moondome_vmat_content (sky_texture_path : String) : String :=
  "// THIS FILE IS AUTO-GENERATED (MOONDOME)\n\nLayer0\n\x7b\n" ++
    "    shader \"csgo_moondome.vfx\"\n\n    //---- Color ----\n" ++
    "    g_flTexCoordRotation \"0.000\"\n" ++
    "    g_nScaleTexCoordUByModelScaleAxis \"0\" // None\n" ++
    "    g_nScaleTexCoordVByModelScaleAxis \"0\" // None\n" ++
    "    g_vColorTint \"[1.000000 1.000000 1.000000 0.000000]\"\n" ++
    "    g_vTexCoordCenter \"[0.500 0.500]\"\n" ++
    "    g_vTexCoordOffset \"[0.000 0.000]\"\n" ++
    "    g_vTexCoordScale \"[1.000 1.000]\"\n" ++
    "    g_vTexCoordScrollSpeed \"[0.000 0.000]\"\n" ++
    "    TextureColor \"[1.000000 1.000000 1.000000 0.000000]\"\n\n" ++
    "    //---- CubeParallax ----\n    g_flCubeParallax \"0.000\"\n\n" ++
    "    //---- Fog ----\n    g_bFogEnabled \"1\"\n\n    //---- Texture ----\n" ++
    "    TextureCubeMap \"" ++ sky_texture_path ++ "\"\n\n" ++
    "    //---- Texture Address Mode ----\n" ++
    "    g_nTextureAddressModeU \"0\" // Wrap\n" ++
    "    g_nTextureAddressModeV \"0\" // Wrap\n\n\n" ++
    "    VariableState\n    \x7b\n        \"Color\"\n        \x7b\n        \x7d\n" ++
    "        \"CubeParallax\"\n        \x7b\n        \x7d\n" ++
    "        \"Fog\"\n        \x7b\n        \x7d\n" ++
    "        \"Texture\"\n        \x7b\n        \x7d\n" ++
    "        \"Texture Address Mode\"\n        \x7b\n        \x7d\n    \x7d\n\x7d"

/-- `create_vmat_files` (lines 279-311), as the list of
`(filename, content)` pairs it writes next to the atlas.  `output_path`
is modelled as the atlas basename (`png_filename` in the source); the
directory component is a filesystem concern outside the embedding.  The
engine texture path is `materials/skybox/<atlas-filename>` (line 291). -/
def create_vmat_files (output_path : String) (create_skybox create_moondome : Bool) :
    List (String × String) :=
  if ¬ create_skybox ∧ ¬ create_moondome then []
  else
    let base_name := splitext_stem output_path
    let sky_texture_path := "materials/skybox/" ++ output_path
    (if create_skybox then
      [("skybox_" ++ base_name ++ ".vmat", get_ldr_vmat_content sky_texture_path)]
     else []) ++
    (if create_moondome then
      [("moondome_" ++ base_name ++ ".vmat", get_moondome_vmat_content sky_texture_path)]
     else [])

/-- `main` (lines 416-473), restricted to which sidecar descriptor files
get written: a cancelled or failed face selection exits before stitching,
a missing output path exits before stitching, and VMAT files are created
only when `stitch_skybox` reports success (lines 436-438). -/
def main_run (dec : String → Option Image)
    (selection : Option (List (Slot × String)))
    (create_skybox create_moondome : Bool)
    (output_path : Option String) (save_ok : Bool) : List (String × String) :=
  match selection with
  | none => []
  | some files =>
      match output_path with
      | none => []
      | some op =>
          match stitch_skybox dec files save_ok with
          | none => []
          | some _ => create_vmat_files op create_skybox create_moondome

/-! ## Helper lemmas: identification -/

/-- Every slot occurs in `TARGET_SLOTS`. -/
lemma mem_TARGET_SLOTS (s : Slot) : s ∈ TARGET_SLOTS := by
  cases s <;> simp [TARGET_SLOTS]

/-- `match_face_loop` returns a slot exactly when that slot matches and
every slot listed before it fails to match: first match wins. -/
lemma match_face_loop_spec (fn : String) :
    ∀ (l : List Slot) (s : Slot),
      match_face_loop fn l = some s ↔
        slot_matches fn s = true ∧
          ∃ l₁ l₂, l = l₁ ++ s :: l₂ ∧ ∀ s' ∈ l₁, slot_matches fn s' = false := by
  intro l
  induction l with
  | nil =>
      intro s
      constructor
      · intro h; simp [match_face_loop] at h
      · rintro ⟨-, l₁, l₂, heq, -⟩
        exact absurd heq (by simp)
  | cons a rest ih =>
      intro s
      by_cases ha : slot_matches fn a = true
      · constructor
        · intro h
          rw [match_face_loop, if_pos ha] at h
          cases h
          exact ⟨ha, [], rest, rfl, by simp⟩
        · rintro ⟨hs, l₁, l₂, heq, hall⟩
          cases l₁ with
          | nil =>
              simp only [List.nil_append, List.cons.injEq] at heq
              rw [match_face_loop, if_pos ha, heq.1]
          | cons b l₁' =>
              simp only [List.cons_append, List.cons.injEq] at heq
              have hb : slot_matches fn b = false := hall b (by simp)
              rw [← heq.1] at hb
              rw [ha] at hb
              cases hb
      · have ha' : slot_matches fn a = false := by
          cases hb : slot_matches fn a
          · rfl
          · exact absurd hb ha
        rw [match_face_loop, if_neg (by simp [ha']), ih s]
        constructor
        · rintro ⟨hs, l₁, l₂, heq, hall⟩
          refine ⟨hs, a :: l₁, l₂, by rw [heq]; rfl, ?_⟩
          intro s' hmem
          rcases List.mem_cons.mp hmem with h | h
          · rw [h]; exact ha'
          · exact hall s' h
        · rintro ⟨hs, l₁, l₂, heq, hall⟩
          cases l₁ with
          | nil =>
              simp only [List.nil_append, List.cons.injEq] at heq
              rw [heq.1] at ha'
              rw [hs] at ha'
              cases ha'
          | cons b l₁' =>
              simp only [List.cons_append, List.cons.injEq] at heq
              exact ⟨hs, l₁', l₂, heq.2, fun s' h => hall s' (by simp [h])⟩

/-- Looking a key up in an appended association list finds it when the
left list already binds it. -/
lemma lookup_append_isSome {β : Type} (l₁ l₂ : List (Slot × β)) (a : Slot)
    (h : (l₁.lookup a).isSome = true) :
    ((l₁ ++ l₂).lookup a).isSome = true := by
  induction l₁ with
  | nil => simp [List.lookup] at h
  | cons p l ih =>
      obtain ⟨k, v⟩ := p
      simp only [List.cons_append, List.lookup] at h ⊢
      cases hk : (a == k) with
      | true => simp [hk]
      | false => simp only [hk] at h ⊢; exact ih h

/-- Looking a key up in an appended association list falls through to the
right list when the left list does not bind it. -/
lemma lookup_append_none {β : Type} (l₁ l₂ : List (Slot × β)) (a : Slot)
    (h : l₁.lookup a = none) :
    (l₁ ++ l₂).lookup a = l₂.lookup a := by
  induction l₁ with
  | nil => simp
  | cons p l ih =>
      obtain ⟨k, v⟩ := p
      simp only [List.cons_append, List.lookup] at h ⊢
      cases hk : (a == k) with
      | true => simp only [hk] at h; cases h
      | false => simp only [hk] at h ⊢; exact ih h

/-- If some candidate in the remaining worklist first-matches a slot that
is already assigned in the `files` dictionary, the matching loop aborts
with a duplicate-face error. -/
lemma identify_loop_error_of_assigned (p : String) (s : Slot) :
    ∀ (paths : List String) (files : List (Slot × String)) (um : List String),
      p ∈ paths → match_face_loop (str_lower p) TARGET_SLOTS = some s →
      (files.lookup s).isSome = true →
      ∃ s', identify_loop paths files um = .error s' := by
  intro paths
  induction paths with
  | nil => intro files um hp _ _; cases hp
  | cons q rest ih =>
      intro files um hp hm hs
      rw [identify_loop]
      cases hq : match_face_loop (str_lower q) TARGET_SLOTS with
      | none =>
          rcases List.mem_cons.mp hp with h | h
          · rw [h] at hm; rw [hm] at hq; cases hq
          · exact ih files (um ++ [q]) h hm hs
      | some s₀ =>
          by_cases h0 : (files.lookup s₀).isSome = true
          · exact ⟨s₀, by simp [h0]⟩
          · rcases List.mem_cons.mp hp with h | h
            · rw [h] at hm; rw [hm] at hq
              cases hq
              exact absurd hs h0
            · simp only [h0, if_false, Bool.false_eq_true]
              have : ((files ++ [(s₀, q)]).lookup s).isSome = true :=
                lookup_append_isSome files [(s₀, q)] s hs
              simpa using ih (files ++ [(s₀, q)]) um h hm this

/-- If two distinct candidates in the worklist first-match the same slot,
the matching loop aborts with a duplicate-face error. -/
lemma identify_loop_error_of_two (s : Slot) (p₂ : String) :
    ∀ (xs : List String) (ys : List String) (p₁ : String)
      (files : List (Slot × String)) (um : List String),
      p₂ ∈ ys →
      match_face_loop (str_lower p₁) TARGET_SLOTS = some s →
      match_face_loop (str_lower p₂) TARGET_SLOTS = some s →
      ∃ s', identify_loop (xs ++ p₁ :: ys) files um = .error s' := by
  intro xs
  induction xs with
  | nil =>
      intro ys p₁ files um h2 hm1 hm2
      rw [List.nil_append, identify_loop, hm1]
      by_cases h0 : (files.lookup s).isSome = true
      · exact ⟨s, by simp [h0]⟩
      · simp only [h0, if_false, Bool.false_eq_true]
        have hnone : files.lookup s = none := by
          cases hf : files.lookup s
          · rfl
          · rw [hf] at h0; exact absurd rfl h0
        have : ((files ++ [(s, p₁)]).lookup s).isSome = true := by
          rw [lookup_append_none files [(s, p₁)] s hnone]
          simp [List.lookup]
        simpa using identify_loop_error_of_assigned p₂ s ys (files ++ [(s, p₁)]) um h2 hm2 this
  | cons x xs' ih =>
      intro ys p₁ files um h2 hm1 hm2
      rw [List.cons_append, identify_loop]
      cases hx : match_face_loop (str_lower x) TARGET_SLOTS with
      | none => exact ih ys p₁ files (um ++ [x]) h2 hm1 hm2
      | some s₀ =>
          by_cases h0 : (files.lookup s₀).isSome = true
          · exact ⟨s₀, by simp [h0]⟩
          · simp only [h0, if_false, Bool.false_eq_true]
            simpa using ih ys p₁ (files ++ [(s₀, x)]) um h2 hm1 hm2

/-- When the matching loop completes without a duplicate, the collected
unmatched list is exactly the candidates whose filename matches no slot's
pattern table, in input order. -/
lemma identify_loop_ok_unmatched :
    ∀ (paths : List String) (files0 : List (Slot × String)) (um0 : List String)
      (files : List (Slot × String)) (um : List String),
      identify_loop paths files0 um0 = .ok (files, um) →
      um = um0 ++ paths.filter
        (fun p => (match_face_loop (str_lower p) TARGET_SLOTS).isNone) := by
  intro paths
  induction paths with
  | nil =>
      intro files0 um0 files um h
      rw [identify_loop] at h
      cases h
      simp
  | cons q rest ih =>
      intro files0 um0 files um h
      rw [identify_loop] at h
      cases hq : match_face_loop (str_lower q) TARGET_SLOTS with
      | none =>
          rw [hq] at h
          have := ih files0 (um0 ++ [q]) files um h
          simpa [hq, List.filter_cons] using this
      | some s₀ =>
          rw [hq] at h
          by_cases h0 : ((files0.lookup s₀).isSome : Prop)
          · simp only [h0, if_true] at h
            cases h
          · simp only [h0, if_false] at h
            have := ih (files0 ++ [(s₀, q)]) um0 files um h
            simpa [hq, List.filter_cons] using this

/-! ## Claim theorems: identification -/

/-- C10: a candidate filename that contains patterns of two or more slots
is assigned to the first matching slot in the fixed test order
`up, left, front, right, back, down` (the order of `TARGET_SLOTS`), not to
the slot with the longer or more specific pattern.  The first conjunct
characterizes the per-file matching loop: it returns `s` exactly when `s`
matches and every slot tested before `s` does not.  The remaining
conjuncts exhibit this on `up_lf.png`, which matches both the `up` table
(via `up_`) and the `left` table (via the longer pattern `_lf.`) yet is
assigned to `up`, and on a full run of `select_skybox_files` where that
file fills the `up` slot. -/
theorem C10_first_matching_slot_wins :
    (∀ (fn : String) (s : Slot),
      match_face_loop fn TARGET_SLOTS = some s ↔
        slot_matches fn s = true ∧
          ∃ l₁ l₂, TARGET_SLOTS = l₁ ++ s :: l₂ ∧
            ∀ s' ∈ l₁, slot_matches fn s' = false)
    ∧ slot_matches "up_lf.png" .up = true
    ∧ slot_matches "up_lf.png" .left = true
    ∧ match_face_loop "up_lf.png" TARGET_SLOTS = some .up
    ∧ select_skybox_files
        ["up_lf.png", "sky_left.png", "sky_ft.png", "sky_rt.png",
         "sky_bk.png", "sky_dn.png"]
      = .ok [(.up, "up_lf.png"), (.left, "sky_left.png"), (.front, "sky_ft.png"),
             (.right, "sky_rt.png"), (.back, "sky_bk.png"), (.down, "sky_dn.png")] :=
  ⟨fun fn s => match_face_loop_spec fn TARGET_SLOTS s, by decide, by decide, by decide,
    by rfl⟩

/-- C4, counterexample: with two candidates both matching the `up`
pattern table and no candidate matching `down`, the run does fail with
the duplicate-face (ambiguity) error rather than the incomplete-set
error — but that error's message names only the conflicting slot; it does
not contain either conflicting filename, refuting the claim that both
filenames are named. -/
theorem C4_counterexample :
    match_face_loop (str_lower "a_up.png") TARGET_SLOTS = some .up
    ∧ match_face_loop (str_lower "b_up.png") TARGET_SLOTS = some .up
    ∧ slot_matches (str_lower "a_up.png") .down = false
    ∧ slot_matches (str_lower "b_up.png") .down = false
    ∧ slot_matches (str_lower "sky_lf.png") .down = false
    ∧ slot_matches (str_lower "sky_rt.png") .down = false
    ∧ slot_matches (str_lower "sky_ft.png") .down = false
    ∧ slot_matches (str_lower "sky_bk.png") .down = false
    ∧ select_skybox_files
        ["a_up.png", "b_up.png", "sky_lf.png", "sky_rt.png", "sky_ft.png",
         "sky_bk.png"]
      = .error (.duplicateFace .up)
    ∧ strContains (duplicate_face_message .up) "a_up.png" = false
    ∧ strContains (duplicate_face_message .up) "b_up.png" = false :=
  ⟨by decide, by decide, by decide, by decide, by decide, by decide, by decide,
   by decide, by rfl, by decide, by decide⟩

/-- C4, amended: if two distinct candidate files first-match the same
slot during identification, the run fails with the duplicate-face
(ambiguity) error — naming the conflicting slot, not the filenames — and
this error is raised rather than the incomplete-set error even when some
other slot has no matching file. -/
theorem C4_duplicate_face_error (file_paths xs ys : List String)
    (p₁ p₂ : String) (s : Slot)
    (hlen : file_paths.length = 6)
    (hsplit : file_paths = xs ++ p₁ :: ys)
    (hmem : p₂ ∈ ys)
    (hm1 : match_face_loop (str_lower p₁) TARGET_SLOTS = some s)
    (hm2 : match_face_loop (str_lower p₂) TARGET_SLOTS = some s) :
    ∃ s', select_skybox_files file_paths = .error (.duplicateFace s')
      ∧ strContains (duplicate_face_message s') (slot_name s') = true := by
  obtain ⟨s', hs'⟩ :=
    identify_loop_error_of_two s p₂ xs ys p₁ [] [] hmem hm1 hm2
  refine ⟨s', ?_, ?_⟩
  · rw [select_skybox_files, if_neg (by rw [hlen]; exact fun h => h rfl), hsplit, hs']
  · cases s' <;> decide

/-- C4 witness: the amended theorem applied to the concrete six-file
selection with `a_up.png` and `b_up.png` both first-matching `up` and no
file matching `down`. -/
theorem C4_duplicate_face_error_witness :
    ∃ s', select_skybox_files
        ["a_up.png", "b_up.png", "sky_lf.png", "sky_rt.png", "sky_ft.png",
         "sky_bk.png"]
      = .error (.duplicateFace s')
      ∧ strContains (duplicate_face_message s') (slot_name s') = true :=
  C4_duplicate_face_error
    ["a_up.png", "b_up.png", "sky_lf.png", "sky_rt.png", "sky_ft.png", "sky_bk.png"]
    [] ["b_up.png", "sky_lf.png", "sky_rt.png", "sky_ft.png", "sky_bk.png"]
    "a_up.png" "b_up.png" .up (by decide) (by rfl) (by decide) (by decide) (by decide)

/-- C5: when the matching loop finishes without a duplicate but fewer than
six slots are resolved, `select_skybox_files` fails with the
cannot-auto-detect (incomplete set) error whose payload names exactly the
unresolved slots and lists exactly the candidates that matched no slot's
pattern table, and no slot mapping is returned. -/
theorem C5_incomplete_set_error (file_paths : List String)
    (files : List (Slot × String)) (um : List String)
    (hlen : file_paths.length = 6)
    (hok : identify_loop file_paths [] [] = .ok (files, um))
    (hlt : files.length ≠ 6) :
    select_skybox_files file_paths
        = .error (.cannotAutoDetect files.length
            (TARGET_SLOTS.filter (fun f => (files.lookup f).isNone)) um)
    ∧ um = file_paths.filter
        (fun p => (match_face_loop (str_lower p) TARGET_SLOTS).isNone)
    ∧ (∀ s : Slot,
        s ∈ TARGET_SLOTS.filter (fun f => (files.lookup f).isNone) ↔
          files.lookup s = none)
    ∧ ∀ result, select_skybox_files file_paths ≠ .ok result := by
  have hsel : select_skybox_files file_paths
      = .error (.cannotAutoDetect files.length
          (TARGET_SLOTS.filter (fun f => (files.lookup f).isNone)) um) := by
    rw [select_skybox_files, if_neg (by rw [hlen]; exact fun h => h rfl), hok]
    dsimp only
    rw [if_pos hlt]
  refine ⟨hsel, ?_, ?_, ?_⟩
  · simpa using identify_loop_ok_unmatched file_paths [] [] files um hok
  · intro s
    rw [List.mem_filter]
    simp [mem_TARGET_SLOTS s, Option.isNone_iff_eq_none]
  · intro result h
    rw [hsel] at h
    cases h

/-- C5 witness: six candidates where `sky_topside.png` matches no pattern
table leave `back` unresolved; the run fails with the incomplete-set
error naming `back` and listing `sky_topside.png`, and the rendered
message text contains both. -/
theorem C5_incomplete_set_error_witness :
    select_skybox_files
        ["sky_up.png", "sky_dn.png", "sky_lf.png", "sky_rt.png", "sky_ft.png",
         "sky_topside.png"]
      = .error (.cannotAutoDetect 5 [.back] ["sky_topside.png"])
    ∧ strContains (cannot_auto_detect_message 5 [.back] ["sky_topside.png"])
        "back" = true
    ∧ strContains (cannot_auto_detect_message 5 [.back] ["sky_topside.png"])
        "sky_topside.png" = true :=
  ⟨(C5_incomplete_set_error
      ["sky_up.png", "sky_dn.png", "sky_lf.png", "sky_rt.png", "sky_ft.png",
       "sky_topside.png"]
      [(.up, "sky_up.png"), (.down, "sky_dn.png"), (.left, "sky_lf.png"),
       (.right, "sky_rt.png"), (.front, "sky_ft.png")]
      ["sky_topside.png"] (by decide) (by rfl) (by decide)).1,
   by decide, by decide⟩

/-! ## Helper lemmas: composition -/

/-- Under the default transform table every rule is
`(source, rotation 0, no flip)`, so once the source image already has the
base width, the buffer pasted for a target slot is exactly the source
face's image. -/
lemma transformed_face_eq (images : Slot → Image) (N : Nat)
    (hw : ∀ s, (images s).width = N) (t : Slot) :
    transformed_face images N t = images (DEFAULT_TRANSFORMS t).1 := by
  cases t <;>
    simp [transformed_face, DEFAULT_TRANSFORMS, apply_transform, normalize_size, hw]

/-- The composed canvas is allocated 4 cells wide. -/
lemma stitch_atlas_width (images : Slot → Image) (N : Nat) :
    (stitch_atlas images N).width = N * 4 := rfl

/-- The composed canvas is allocated 3 cells high. -/
lemma stitch_atlas_height (images : Slot → Image) (N : Nat) :
    (stitch_atlas images N).height = N * 3 := rfl

/-- Pixel content of the atlas inside a target slot's grid cell: the
configured source face's pixel, pasted by direct overwrite. -/
lemma stitch_atlas_pix_cell (images : Slot → Image) (N : Nat)
    (hw : ∀ s, (images s).width = N) (hh : ∀ s, (images s).height = N)
    (t : Slot) (dx dy : Nat) (hdx : dx < N) (hdy : dy < N) :
    (stitch_atlas images N).pix ((COORDS N t).1 + dx) ((COORDS N t).2 + dy)
      = (images (DEFAULT_TRANSFORMS t).1).pix dx dy := by
  have htf := transformed_face_eq images N hw
  cases t <;>
    simp only [stitch_atlas, TARGET_SLOTS, List.foldl, paste_step, htf, COORDS,
      paste, image_new, DEFAULT_TRANSFORMS, hw, hh] <;>
    split_ifs <;>
    first
      | omega
      | rfl
      | (congr 1 <;> omega)

/-- Pixel content of the atlas in the six unused grid cells: the
untouched transparent canvas color. -/
lemma stitch_atlas_pix_empty (images : Slot → Image) (N : Nat)
    (hw : ∀ s, (images s).width = N) (hh : ∀ s, (images s).height = N)
    (x y : Nat)
    (hx : x < N ∨ (N * 2 ≤ x ∧ x < N * 4))
    (hy : y < N ∨ (N * 2 ≤ y ∧ y < N * 3)) :
    (stitch_atlas images N).pix x y = ⟨0, 0, 0, 0⟩ := by
  have htf := transformed_face_eq images N hw
  simp only [stitch_atlas, TARGET_SLOTS, List.foldl, paste_step, htf, COORDS,
    paste, image_new, hw, hh, DEFAULT_TRANSFORMS]
  split_ifs <;> first | omega | rfl

/-- A complete image dictionary composes to the atlas built from its
lookups, with the base size taken from the first entry's width. -/
lemma compose_eq (imgs : List (Slot × Image)) (faces : Slot → Image)
    (s₀ : Slot) (i₀ : Image)
    (hhead : imgs.head? = some (s₀, i₀))
    (hl : ∀ s, imgs.lookup s = some (faces s)) :
    compose imgs = some (stitch_atlas faces i₀.width) := by
  unfold compose
  rw [hhead]
  dsimp only
  rw [hl .up, hl .left, hl .front, hl .right, hl .back, hl .down]
  dsimp only
  congr 1

/-- The first binding of an association list wins the lookup. -/
lemma lookup_head {β : Type} (s₀ : Slot) (i₀ : β) (rest : List (Slot × β)) :
    ((s₀, i₀) :: rest).lookup s₀ = some i₀ := by
  simp [List.lookup]

/-- A successful composition produces exactly the atlas stitched from the
dictionary's faces at the base size `N`, provided every face has width
`N` (so in particular the first one, which fixes the base size). -/
lemma compose_some_eq (imgs : List (Slot × Image)) (faces : Slot → Image)
    (N : Nat) (atlas : Image)
    (hl : ∀ s, imgs.lookup s = some (faces s))
    (hw : ∀ s, (faces s).width = N)
    (hc : compose imgs = some atlas) :
    atlas = stitch_atlas faces N := by
  cases imgs with
  | nil =>
      have h := hl .up
      simp [List.lookup] at h
  | cons p rest =>
      obtain ⟨s₀, i₀⟩ := p
      have hhead : ((s₀, i₀) :: rest).head? = some (s₀, i₀) := rfl
      have h1 : ((s₀, i₀) :: rest).lookup s₀ = some i₀ := lookup_head s₀ i₀ rest
      rw [hl s₀] at h1
      have hfw : i₀.width = N := by
        cases h1
        exact hw s₀
      have h2 := compose_eq ((s₀, i₀) :: rest) faces s₀ i₀ hhead hl
      rw [hc, hfw] at h2
      exact Option.some.inj h2

/-- Concrete 1x1 test face used by the concrete instantiations below. -/
def solid1 (c : RGBA) : Image := ⟨1, 1, fun _ _ => c⟩

/-- Concrete 2x2 test face used by the concrete instantiations below. -/
def solid2 (c : RGBA) : Image := ⟨2, 2, fun _ _ => c⟩

/-- A complete 1x1 test face dictionary, in `up .. down` insertion order. -/
def imgsW : List (Slot × Image) :=
  [(.up, solid1 ⟨1, 0, 0, 255⟩), (.left, solid1 ⟨2, 0, 0, 255⟩),
   (.front, solid1 ⟨3, 0, 0, 255⟩), (.right, solid1 ⟨4, 0, 0, 255⟩),
   (.back, solid1 ⟨5, 0, 0, 255⟩), (.down, solid1 ⟨6, 0, 0, 255⟩)]

/-- The slot-to-face function underlying `imgsW`. -/
def facesW : Slot → Image
  | .up => solid1 ⟨1, 0, 0, 255⟩
  | .left => solid1 ⟨2, 0, 0, 255⟩
  | .front => solid1 ⟨3, 0, 0, 255⟩
  | .right => solid1 ⟨4, 0, 0, 255⟩
  | .back => solid1 ⟨5, 0, 0, 255⟩
  | .down => solid1 ⟨6, 0, 0, 255⟩

/-! ## Claim theorems: composition -/

/-- C1: a successful composition run whose six faces all have edge `N`
yields an RGBA atlas of size `(4N, 3N)` in which each target slot's
buffer is pasted by direct overwrite at its fixed grid cell — up at
column 1 row 0, left at (0,1), front at (1,1), right at (2,1),
back at (3,1), down at (1,2), the cells of `COORDS` — and every pixel of
the six remaining cells (0,0),(2,0),(3,0),(0,2),(2,2),(3,2) has alpha 0.
The buffer pasted at a target slot's cell is the image of its configured
source face (`DEFAULT_TRANSFORMS`), unchanged, since the default rules
use rotation 0 and no flip. -/
theorem C1_atlas_layout (imgs : List (Slot × Image)) (faces : Slot → Image)
    (N : Nat) (atlas : Image)
    (hl : ∀ s, imgs.lookup s = some (faces s))
    (hw : ∀ s, (faces s).width = N) (hh : ∀ s, (faces s).height = N)
    (hc : compose imgs = some atlas) :
    (atlas.width = N * 4 ∧ atlas.height = N * 3)
    ∧ (∀ t : Slot, ∀ dx dy, dx < N → dy < N →
        atlas.pix ((COORDS N t).1 + dx) ((COORDS N t).2 + dy)
          = (faces (DEFAULT_TRANSFORMS t).1).pix dx dy)
    ∧ (∀ x y, (x < N ∨ (N * 2 ≤ x ∧ x < N * 4)) →
        (y < N ∨ (N * 2 ≤ y ∧ y < N * 3)) →
        (atlas.pix x y).a = 0) := by
  have hatlas := compose_some_eq imgs faces N atlas hl hw hc
  subst hatlas
  refine ⟨⟨stitch_atlas_width faces N, stitch_atlas_height faces N⟩, ?_, ?_⟩
  · intro t dx dy hdx hdy
    exact stitch_atlas_pix_cell faces N hw hh t dx dy hdx hdy
  · intro x y hx hy
    rw [stitch_atlas_pix_empty faces N hw hh x y hx hy]

/-- C1 witness: the layout theorem applied to a concrete complete run of
six 1x1 faces. -/
theorem C1_atlas_layout_witness :
    (stitch_atlas facesW 1).width = 1 * 4
    ∧ (stitch_atlas facesW 1).height = 1 * 3
    ∧ ((stitch_atlas facesW 1).pix 0 0).a = 0 := by
  have h := C1_atlas_layout imgsW facesW 1 (stitch_atlas facesW 1)
    (by intro s; cases s <;> rfl) (by intro s; cases s <;> rfl)
    (by intro s; cases s <;> rfl)
    (compose_eq imgsW facesW .up (solid1 ⟨1, 0, 0, 255⟩) rfl
      (by intro s; cases s <;> rfl))
  exact ⟨h.1.1, h.1.2, h.2.2 0 0 (Or.inl (by decide)) (Or.inl (by decide))⟩

/-- C2: under the default transform table, each target slot's cell takes
its pixels verbatim from the configured source face — left from back,
front from right, right from front, back from left, up from up, down from
down — each with rotation 0 and no flip, and the four swapped rules are
genuinely non-identity (never "corrected"). -/
theorem C2_source_remapping (imgs : List (Slot × Image)) (faces : Slot → Image)
    (N : Nat) (atlas : Image)
    (hl : ∀ s, imgs.lookup s = some (faces s))
    (hw : ∀ s, (faces s).width = N) (hh : ∀ s, (faces s).height = N)
    (hc : compose imgs = some atlas) :
    (∀ dx dy, dx < N → dy < N →
        atlas.pix (N * 1 + dx) (N * 0 + dy) = (faces .up).pix dx dy
      ∧ atlas.pix (N * 0 + dx) (N * 1 + dy) = (faces .back).pix dx dy
      ∧ atlas.pix (N * 1 + dx) (N * 1 + dy) = (faces .right).pix dx dy
      ∧ atlas.pix (N * 2 + dx) (N * 1 + dy) = (faces .front).pix dx dy
      ∧ atlas.pix (N * 3 + dx) (N * 1 + dy) = (faces .left).pix dx dy
      ∧ atlas.pix (N * 1 + dx) (N * 2 + dy) = (faces .down).pix dx dy)
    ∧ DEFAULT_TRANSFORMS .up = (.up, 0, none)
    ∧ DEFAULT_TRANSFORMS .down = (.down, 0, none)
    ∧ DEFAULT_TRANSFORMS .left = (.back, 0, none)
    ∧ DEFAULT_TRANSFORMS .front = (.right, 0, none)
    ∧ DEFAULT_TRANSFORMS .right = (.front, 0, none)
    ∧ DEFAULT_TRANSFORMS .back = (.left, 0, none)
    ∧ (DEFAULT_TRANSFORMS .left).1 ≠ .left
    ∧ (DEFAULT_TRANSFORMS .front).1 ≠ .front
    ∧ (DEFAULT_TRANSFORMS .right).1 ≠ .right
    ∧ (DEFAULT_TRANSFORMS .back).1 ≠ .back := by
  have hatlas := compose_some_eq imgs faces N atlas hl hw hc
  subst hatlas
  refine ⟨?_, rfl, rfl, rfl, rfl, rfl, rfl, by decide, by decide, by decide,
    by decide⟩
  intro dx dy hdx hdy
  exact ⟨stitch_atlas_pix_cell faces N hw hh .up dx dy hdx hdy,
    stitch_atlas_pix_cell faces N hw hh .left dx dy hdx hdy,
    stitch_atlas_pix_cell faces N hw hh .front dx dy hdx hdy,
    stitch_atlas_pix_cell faces N hw hh .right dx dy hdx hdy,
    stitch_atlas_pix_cell faces N hw hh .back dx dy hdx hdy,
    stitch_atlas_pix_cell faces N hw hh .down dx dy hdx hdy⟩

/-- C2 witness: in the concrete 1x1 run, the left cell (0,1) shows the
back face's color and the back cell (3,1) shows the left face's color. -/
theorem C2_source_remapping_witness :
    (stitch_atlas facesW 1).pix (1 * 0 + 0) (1 * 1 + 0) = ⟨5, 0, 0, 255⟩
    ∧ (stitch_atlas facesW 1).pix (1 * 3 + 0) (1 * 1 + 0) = ⟨2, 0, 0, 255⟩ := by
  have h := C2_source_remapping imgsW facesW 1 (stitch_atlas facesW 1)
    (by intro s; cases s <;> rfl) (by intro s; cases s <;> rfl)
    (by intro s; cases s <;> rfl)
    (compose_eq imgsW facesW .up (solid1 ⟨1, 0, 0, 255⟩) rfl
      (by intro s; cases s <;> rfl))
  exact ⟨(h.1 0 0 (by decide) (by decide)).2.1,
    (h.1 0 0 (by decide) (by decide)).2.2.2.2.1⟩

/-- The pasted buffer always has width `base`: the resize step triggers
exactly on a width mismatch (`image_to_paste.size[0] != base_size`). -/
lemma transformed_face_width (faces : Slot → Image) (N : Nat) (t : Slot) :
    (transformed_face faces N t).width = N := by
  cases t <;>
    (simp only [transformed_face, DEFAULT_TRANSFORMS, apply_transform,
      normalize_size]
     split_ifs <;> first | rfl | omega)

/-- For a square source face the pasted buffer also has height `base`:
either the width differed and the face was resized to `N`x`N`, or the
width matched and the height equals it. -/
lemma transformed_face_height (faces : Slot → Image) (N : Nat) (t : Slot)
    (hsq : (faces (DEFAULT_TRANSFORMS t).1).height
      = (faces (DEFAULT_TRANSFORMS t).1).width) :
    (transformed_face faces N t).height = N := by
  cases t <;>
    (simp only [DEFAULT_TRANSFORMS] at hsq
     simp only [transformed_face, DEFAULT_TRANSFORMS, apply_transform,
       normalize_size]
     split_ifs <;> first | rfl | omega)

/-- A face whose width differs from the base size is resized (to
`base`x`base`) before being pasted. -/
lemma transformed_face_resized (faces : Slot → Image) (N : Nat) (t : Slot)
    (h : (faces (DEFAULT_TRANSFORMS t).1).width ≠ N) :
    transformed_face faces N t = resize (faces (DEFAULT_TRANSFORMS t).1) N N := by
  cases t <;>
    (simp only [DEFAULT_TRANSFORMS] at h
     simp only [transformed_face, DEFAULT_TRANSFORMS, apply_transform,
       normalize_size]
     split_ifs <;> rfl)

/-- A 2x1 (non-square) test face whose width equals the base size 2. -/
def img_wide : Image := ⟨2, 1, fun _ _ => ⟨7, 7, 7, 255⟩⟩

/-- A test face dictionary whose first face is the non-square `img_wide`
(so `base_size = 2`) and whose other faces are square 2x2. -/
def imgs3 : List (Slot × Image) :=
  [(.up, img_wide), (.left, solid2 ⟨1, 1, 1, 255⟩), (.front, solid2 ⟨2, 2, 2, 255⟩),
   (.right, solid2 ⟨3, 3, 3, 255⟩), (.back, solid2 ⟨4, 4, 4, 255⟩),
   (.down, solid2 ⟨5, 5, 5, 255⟩)]

/-- The slot-to-face function underlying `imgs3`. -/
def faces3 : Slot → Image
  | .up => img_wide
  | .left => solid2 ⟨1, 1, 1, 255⟩
  | .front => solid2 ⟨2, 2, 2, 255⟩
  | .right => solid2 ⟨3, 3, 3, 255⟩
  | .back => solid2 ⟨4, 4, 4, 255⟩
  | .down => solid2 ⟨5, 5, 5, 255⟩

/-- C3, counterexample: the run over `imgs3` composes successfully with
base size `N = 2`, yet the buffer pasted for the `up` slot is the
unresized 2x1 face: its height differs from `N`, so a buffer whose
height differs from `N` does reach the canvas.  The source's resize
check (line 389) tests only `size[0]`, the width. -/
theorem C3_counterexample :
    compose imgs3 = some (stitch_atlas faces3 2)
    ∧ transformed_face faces3 2 .up = img_wide
    ∧ img_wide.width = 2
    ∧ img_wide.height = 1
    ∧ (transformed_face faces3 2 .up).height ≠ 2 :=
  ⟨compose_eq imgs3 faces3 .up img_wide rfl (by intro s; cases s <;> rfl),
   rfl, rfl, rfl, by intro h; rw [show transformed_face faces3 2 .up = img_wide from rfl] at h; cases h⟩

/-- C3, amended: for any successful run the output atlas dimensions are
exactly `(4N, 3N)` for the `N` established by the first decoded face's
width; every face whose *width* differs from `N` is resized to an
`N`x`N` buffer before compositing, and every pasted buffer has width `N`.
When every input face is square (as the source assumes), every buffer
reaching the canvas is exactly `N`x`N`. -/
theorem C3_size_invariant (imgs : List (Slot × Image)) (faces : Slot → Image)
    (N : Nat) (atlas : Image)
    (hl : ∀ s, imgs.lookup s = some (faces s))
    (hw1 : imgs.head?.map (fun p => p.2.width) = some N)
    (hsq : ∀ s, (faces s).height = (faces s).width)
    (hc : compose imgs = some atlas) :
    atlas.width = N * 4 ∧ atlas.height = N * 3
    ∧ (∀ t, (faces (DEFAULT_TRANSFORMS t).1).width ≠ N →
        transformed_face faces N t = resize (faces (DEFAULT_TRANSFORMS t).1) N N)
    ∧ (∀ t, (transformed_face faces N t).width = N)
    ∧ (∀ t, (transformed_face faces N t).height = N) := by
  have hatlas : atlas = stitch_atlas faces N := by
    cases imgs with
    | nil =>
        have h := hl .up
        simp [List.lookup] at h
    | cons p rest =>
        obtain ⟨s₀, i₀⟩ := p
        have hfw : i₀.width = N := by
          simp only [List.head?, Option.map] at hw1
          exact Option.some.inj hw1
        have h2 := compose_eq ((s₀, i₀) :: rest) faces s₀ i₀ rfl hl
        rw [hc, hfw] at h2
        exact Option.some.inj h2
  subst hatlas
  exact ⟨stitch_atlas_width faces N, stitch_atlas_height faces N,
    fun t ht => transformed_face_resized faces N t ht,
    fun t => transformed_face_width faces N t,
    fun t => transformed_face_height faces N t (hsq _)⟩

/-- A test face dictionary whose first face is 1x1 and whose `left` face
is square 2x2 (native resolution differing from the base size 1). -/
def imgsW3 : List (Slot × Image) :=
  [(.up, solid1 ⟨1, 0, 0, 255⟩), (.left, solid2 ⟨8, 8, 8, 255⟩),
   (.front, solid1 ⟨3, 0, 0, 255⟩), (.right, solid1 ⟨4, 0, 0, 255⟩),
   (.back, solid1 ⟨5, 0, 0, 255⟩), (.down, solid1 ⟨6, 0, 0, 255⟩)]

/-- The slot-to-face function underlying `imgsW3`. -/
def facesW3 : Slot → Image
  | .up => solid1 ⟨1, 0, 0, 255⟩
  | .left => solid2 ⟨8, 8, 8, 255⟩
  | .front => solid1 ⟨3, 0, 0, 255⟩
  | .right => solid1 ⟨4, 0, 0, 255⟩
  | .back => solid1 ⟨5, 0, 0, 255⟩
  | .down => solid1 ⟨6, 0, 0, 255⟩

/-- C3 witness: a run whose first face is 1x1 (so `N = 1`) and whose
`left` face is square 2x2: the atlas is 4x3 and the `back` target slot's
pasted buffer (sourced from `left`) is the resize of that face to 1x1. -/
theorem C3_size_invariant_witness :
    (stitch_atlas facesW3 1).width = 1 * 4
    ∧ transformed_face facesW3 1 .back = resize (solid2 ⟨8, 8, 8, 255⟩) 1 1
    ∧ (transformed_face facesW3 1 .back).width = 1
    ∧ (transformed_face facesW3 1 .back).height = 1 := by
  have h := C3_size_invariant imgsW3 facesW3 1 (stitch_atlas facesW3 1)
    (by intro s; cases s <;> rfl) rfl (by intro s; cases s <;> rfl)
    (compose_eq imgsW3 facesW3 .up (solid1 ⟨1, 0, 0, 255⟩) rfl
      (by intro s; cases s <;> rfl))
  exact ⟨h.1, h.2.2.1 .back (by decide), h.2.2.2.1 .back, h.2.2.2.2 .back⟩

/-- A face dictionary with differing native face sizes: the first entry
is 1x1, the rest are 2x2. -/
def l6a : List (Slot × Image) :=
  [(.up, solid1 ⟨1, 0, 0, 255⟩), (.left, solid2 ⟨2, 0, 0, 255⟩),
   (.front, solid2 ⟨3, 0, 0, 255⟩), (.right, solid2 ⟨4, 0, 0, 255⟩),
   (.back, solid2 ⟨5, 0, 0, 255⟩), (.down, solid2 ⟨6, 0, 0, 255⟩)]

/-- The same six slot-to-buffer assignments as `l6a`, supplied with the
first two faces in the opposite order. -/
def l6b : List (Slot × Image) :=
  [(.left, solid2 ⟨2, 0, 0, 255⟩), (.up, solid1 ⟨1, 0, 0, 255⟩),
   (.front, solid2 ⟨3, 0, 0, 255⟩), (.right, solid2 ⟨4, 0, 0, 255⟩),
   (.back, solid2 ⟨5, 0, 0, 255⟩), (.down, solid2 ⟨6, 0, 0, 255⟩)]

/-- C6, counterexample: `l6a` and `l6b` assign the identical buffer to
every slot, yet composing them yields different atlases (4 pixels wide
versus 8), because the base size is taken from whichever face was
supplied first (line 361).  The output is therefore not a function of the
slot-to-buffer assignments alone: supply order matters when the faces'
native sizes differ. -/
theorem C6_counterexample :
    l6a.lookup .up = l6b.lookup .up
    ∧ l6a.lookup .left = l6b.lookup .left
    ∧ l6a.lookup .front = l6b.lookup .front
    ∧ l6a.lookup .right = l6b.lookup .right
    ∧ l6a.lookup .back = l6b.lookup .back
    ∧ l6a.lookup .down = l6b.lookup .down
    ∧ (compose l6a).map Image.width = some 4
    ∧ (compose l6b).map Image.width = some 8
    ∧ compose l6a ≠ compose l6b := by
  refine ⟨rfl, rfl, rfl, rfl, rfl, rfl, rfl, rfl, ?_⟩
  intro hcontra
  have h2 := congrArg (Option.map Image.width) hcontra
  have e1 : (compose l6a).map Image.width = some 4 := rfl
  have e2 : (compose l6b).map Image.width = some 8 := rfl
  rw [e1, e2] at h2
  exact absurd h2 (by decide)

/-- C6, amended: the composed atlas is a pure function of the six
slot-to-buffer assignments and the width of the first supplied face: two
runs given lookup-identical face dictionaries whose first entries have
equal widths produce identical atlases, regardless of the order in which
the remaining faces are supplied; in particular, when all six buffers
share one edge length the output is fully order-independent.  There is no
other order dependence and no randomness. -/
theorem C6_order_independent (l1 l2 : List (Slot × Image))
    (h : ∀ s, l1.lookup s = l2.lookup s)
    (hw : l1.head?.map (fun p => p.2.width) = l2.head?.map (fun p => p.2.width)) :
    compose l1 = compose l2 := by
  cases h1 : l1.head? with
  | none =>
      have hl1 : l1 = [] := by
        cases l1 with
        | nil => rfl
        | cons a t => cases h1
      subst hl1
      rw [show compose [] = none from rfl]
      unfold compose
      cases h2 : l2.head? with
      | none => rfl
      | some p2 =>
          dsimp only
          rw [show l2.lookup .up = none from by rw [← h .up]; rfl]
  | some p1 =>
      cases h2 : l2.head? with
      | none =>
          rw [h1, h2] at hw
          cases hw
      | some p2 =>
          obtain ⟨s1, i1⟩ := p1
          obtain ⟨s2, i2⟩ := p2
          have hww : i1.width = i2.width := by
            rw [h1, h2] at hw
            simpa using hw
          unfold compose
          rw [h1, h2]
          dsimp only
          rw [h .up, h .left, h .front, h .right, h .back, h .down, hww]

/-- The assignments of `imgsW` supplied with the last two faces in the
opposite order (same first face, hence same base size). -/
def imgsWperm : List (Slot × Image) :=
  [(.up, solid1 ⟨1, 0, 0, 255⟩), (.left, solid1 ⟨2, 0, 0, 255⟩),
   (.front, solid1 ⟨3, 0, 0, 255⟩), (.right, solid1 ⟨4, 0, 0, 255⟩),
   (.down, solid1 ⟨6, 0, 0, 255⟩), (.back, solid1 ⟨5, 0, 0, 255⟩)]

/-- C6 witness: the amended order-independence theorem applied to two
concrete permutations of the same equal-sized face assignments. -/
theorem C6_order_independent_witness : compose imgsW = compose imgsWperm :=
  C6_order_independent imgsW imgsWperm (by intro s; cases s <;> rfl) rfl

/-- C7: the per-face transform rotates by the rule's rotation degrees
counter-clockwise with the canvas size preserved, then applies the flip
when one is configured; in particular a 180-degree rotation with no flip
on an `N`x`N` face sends the pixel at `(x, y)` to `(N-1-x, N-1-y)`, so a
single marker pixel at `(0, 0)` is relocated to `(N-1, N-1)` and appears
nowhere else. -/
theorem C7_rotation_relocates_marker (N : Nat) (img : Image) (mark : RGBA)
    (hw : img.width = N) (hh : img.height = N) (hN : 0 < N)
    (hmark : img.pix 0 0 = mark)
    (huniq : ∀ x, x < N → ∀ y, y < N → ¬(x = 0 ∧ y = 0) → img.pix x y ≠ mark) :
    (apply_transform 180 none img).width = N
    ∧ (apply_transform 180 none img).height = N
    ∧ (apply_transform 180 none img).pix (N - 1) (N - 1) = mark
    ∧ (∀ x, x < N → ∀ y, y < N → ¬(x = N - 1 ∧ y = N - 1) →
        (apply_transform 180 none img).pix x y ≠ mark) := by
  have hat : apply_transform 180 none img
      = ⟨img.width, img.height,
          fun x y => img.pix (img.width - 1 - x) (img.height - 1 - y)⟩ := by
    simp [apply_transform, rotate]
  rw [hat]
  refine ⟨hw, hh, ?_, ?_⟩
  · dsimp only
    rw [hw, hh, show N - 1 - (N - 1) = 0 from by omega]
    exact hmark
  · intro x hx y hy hne
    dsimp only
    rw [hw, hh]
    exact huniq (N - 1 - x) (by omega) (N - 1 - y) (by omega) (by omega)

/-- A 2x2 test face carrying a single marker pixel at `(0, 0)`. -/
def imgC7 : Image :=
  ⟨2, 2, fun x y => if x = 0 ∧ y = 0 then ⟨9, 9, 9, 9⟩ else ⟨0, 0, 0, 0⟩⟩

/-- C7 witness: the 180-degree rotation theorem applied to the concrete
2x2 marker face: the marker lands at `(1, 1)`. -/
theorem C7_rotation_relocates_marker_witness :
    (apply_transform 180 none imgC7).pix 1 1 = ⟨9, 9, 9, 9⟩ :=
  (C7_rotation_relocates_marker 2 imgC7 ⟨9, 9, 9, 9⟩ rfl rfl (by decide) rfl
    (by decide)).2.2.1

/-- C8: sidecar material descriptors are written only after the atlas has
been successfully composed and saved: any run in which face selection
fails or is cancelled, the output destination is missing, or
`stitch_skybox` reports failure (decode error, missing face during
composition, or failed atlas write) emits zero VMAT files. -/
theorem C8_no_descriptor_on_failure (dec : String → Option Image)
    (selection : Option (List (Slot × String)))
    (create_skybox create_moondome : Bool)
    (output_path : Option String) (save_ok : Bool)
    (hfail : selection = none ∨ output_path = none ∨
      ∃ files, selection = some files ∧ stitch_skybox dec files save_ok = none) :
    main_run dec selection create_skybox create_moondome output_path save_ok = [] := by
  rcases hfail with h | h | ⟨files, hsel, hst⟩
  · rw [h]
    rfl
  · cases selection with
    | none => rfl
    | some files =>
        unfold main_run
        rw [h]
  · rw [hsel]
    cases output_path with
    | none => rfl
    | some op =>
        unfold main_run
        dsimp only
        rw [hst]

/-- C8 witness: a run whose decoder fails on every face (so the stitch
step fails) writes no VMAT files even though both were requested. -/
theorem C8_no_descriptor_on_failure_witness :
    main_run (fun _ => none) (some [(.up, "sky_up.png")]) true true
      (some "skybox_cross.png") true = [] :=
  C8_no_descriptor_on_failure (fun _ => none) (some [(.up, "sky_up.png")]) true true
    (some "skybox_cross.png") true
    (Or.inr (Or.inr ⟨[(.up, "sky_up.png")], rfl, rfl⟩))

set_option maxRecDepth 1000000 in
/-- C9: each emitted material text block is a fixed template with one
substitution point, the atlas's engine-relative reference path
`materials/skybox/<atlas-filename>`; the sky block is emitted exactly
when the sky flag is set and the moondome block exactly when the
moondome flag is set; and for an atlas saved as `skybox_cross.png` the
sky block (and the moondome block) contains the literal substring
`skybox_cross.png`. -/
theorem C9_vmat_emission :
    (∀ (output_path : String) (create_skybox create_moondome : Bool),
      create_vmat_files output_path create_skybox create_moondome
        = (if create_skybox then
            [("skybox_" ++ splitext_stem output_path ++ ".vmat",
              get_ldr_vmat_content ("materials/skybox/" ++ output_path))]
           else []) ++
          (if create_moondome then
            [("moondome_" ++ splitext_stem output_path ++ ".vmat",
              get_moondome_vmat_content ("materials/skybox/" ++ output_path))]
           else []))
    ∧ (∃ pre suf : String, ∀ p : String, get_ldr_vmat_content p = pre ++ p ++ suf)
    ∧ (∃ pre suf : String, ∀ p : String, get_moondome_vmat_content p = pre ++ p ++ suf)
    ∧ strContains (get_ldr_vmat_content ("materials/skybox/" ++ "skybox_cross.png"))
        "skybox_cross.png" = true
    ∧ strContains
        (get_moondome_vmat_content ("materials/skybox/" ++ "skybox_cross.png"))
        "skybox_cross.png" = true := by
  refine ⟨?_, ?_, ?_, by decide, by decide⟩
  · intro op cs cm
    cases cs <;> cases cm <;> simp [create_vmat_files]
  · refine ⟨"// THIS FILE IS AUTO-GENERATED (STANDARD SKYBOX)\n\nLayer0\n\x7b\n" ++
      "    shader \"sky.vfx\"\n\n    //---- Format ----\n" ++
      "    F_TEXTURE_FORMAT2 1 // Dxt1 (LDR)\n\n    //---- Texture ----\n" ++
      "    g_flBrightnessExposureBias \"0.000\"\n" ++
      "    g_flRenderOnlyExposureBias \"0.000\"\n" ++
      "    SkyTexture \"",
      "\"\n\n\n" ++
      "    VariableState\n    \x7b\n        \"Texture\"\n        \x7b\n" ++
      "        \x7d\n    \x7d\n\x7d", ?_⟩
    intro p
    simp [get_ldr_vmat_content, String.append_assoc]
  · refine ⟨"// THIS FILE IS AUTO-GENERATED (MOONDOME)\n\nLayer0\n\x7b\n" ++
      "    shader \"csgo_moondome.vfx\"\n\n    //---- Color ----\n" ++
      "    g_flTexCoordRotation \"0.000\"\n" ++
      "    g_nScaleTexCoordUByModelScaleAxis \"0\" // None\n" ++
      "    g_nScaleTexCoordVByModelScaleAxis \"0\" // None\n" ++
      "    g_vColorTint \"[1.000000 1.000000 1.000000 0.000000]\"\n" ++
      "    g_vTexCoordCenter \"[0.500 0.500]\"\n" ++
      "    g_vTexCoordOffset \"[0.000 0.000]\"\n" ++
      "    g_vTexCoordScale \"[1.000 1.000]\"\n" ++
      "    g_vTexCoordScrollSpeed \"[0.000 0.000]\"\n" ++
      "    TextureColor \"[1.000000 1.000000 1.000000 0.000000]\"\n\n" ++
      "    //---- CubeParallax ----\n    g_flCubeParallax \"0.000\"\n\n" ++
      "    //---- Fog ----\n    g_bFogEnabled \"1\"\n\n    //---- Texture ----\n" ++
      "    TextureCubeMap \"",
      "\"\n\n" ++
      "    //---- Texture Address Mode ----\n" ++
      "    g_nTextureAddressModeU \"0\" // Wrap\n" ++
      "    g_nTextureAddressModeV \"0\" // Wrap\n\n\n" ++
      "    VariableState\n    \x7b\n        \"Color\"\n        \x7b\n        \x7d\n" ++
      "        \"CubeParallax\"\n        \x7b\n        \x7d\n" ++
      "        \"Fog\"\n        \x7b\n        \x7d\n" ++
      "        \"Texture\"\n        \x7b\n        \x7d\n" ++
      "        \"Texture Address Mode\"\n        \x7b\n        \x7d\n    \x7d\n\x7d", ?_⟩
    intro p
    simp [get_moondome_vmat_content, String.append_assoc]
